import Mathlib

/-
Shallow embedding of the Gala Seating System engine (src/app.py) in Lean 4.

The database state (tables `Ticket`, `TableAssignment`, `BlockedTable` of
app.py) is modelled as lists of records; SQLAlchemy queries become list
operations: `filter_by(...).first()` is `List.find?`, `filter_by(...).count()`
is `List.filter` followed by `List.length`, `query.get(id)` is `List.find?`
on the primary key.  `db.session.add` appends, `db.session.delete` removes
the first record with the given primary key, in-place attribute mutation
updates the first matching record.  `db.session.commit` either yields the
staged state or, when the unique constraint on `TableAssignment.ticket_number`
is violated, raises: the route's `except` clause rolls back and answers a
generic 500 error, modelled by `Resp.err ApiError.serverError` together with
the unchanged pre-call state.  Timestamps (`datetime.utcnow()`) are an
explicit `now : Nat` argument.  Python falsiness of a missing or zero JSON
integer is modelled by the value 0, and of a missing string by "".
-/

namespace Gala

def SEATS_PER_TABLE : Nat := 10

def TOTAL_TABLES : Nat := 25

def TOTAL_TICKETS : Nat := 250

/-- Row of the `Ticket` table (app.py lines 34-40). -/
structure Ticket where
  ticket_number : String
  full_name : String
  is_used : Bool
  used_at : Option Nat
deriving Repr, DecidableEq

/-- Row of the `TableAssignment` table (app.py lines 42-47). -/
structure TableAssignment where
  id : Nat
  ticket_number : String
  full_name : String
  table_number : Int
  assigned_at : Nat
deriving Repr, DecidableEq

/-- Row of the `BlockedTable` table (app.py lines 49-53). -/
structure BlockedTable where
  table_number : Int
  reason : String
deriving Repr, DecidableEq

/-- The whole database: the three tables plus the autoincrement counter
that hands out `TableAssignment.id` values at insertion time. -/
structure DBState where
  tickets : List Ticket
  assignments : List TableAssignment
  blocked : List BlockedTable
  nextId : Nat
deriving Repr, DecidableEq

/-- The per-client Flask session fields the engine reads:
`session['guests']` (presence is what `assign_seats_api` checks) and
`session['ticket_numbers']`. -/
structure SessionState where
  guests : Option (List String)
  ticket_numbers : List String
deriving Repr, DecidableEq

/-- The error payloads of the JSON responses, one constructor per distinct
error message of app.py, carrying the data interpolated into the message. -/
inductive ApiError where
  | sessionExpired
  | noAssignments
  | invalidTicket (tn : String)
  | tableNowFull (t : Int)
  | tableBlocked (t : Int)
  | serverError
  | assignmentIdRequired
  | assignmentNotFound
  | invalidTableNumber
  | alreadyBlockedTable
  | tableNumberRequired
  | notBlocked
  | missingFields
  | ticketAlreadyAssigned (tn : String) (t : Int)
  | tableFull (t : Int) (occupied : Nat)
  | ticketAndNameRequired
  | ticketNotANumber
  | ticketOutOfRange
  | ticketExists (tn : String)
  | noTickets
  | allFieldsRequired
  | duplicateTicket (tn : String)
  | ticketAssignedTo (tn : String) (t : Int)
  | ticketAlreadyUsed (tn : String)
deriving Repr, DecidableEq

/-- A route's JSON response, reduced to success vs. the error payload. -/
inductive Resp where
  | ok
  | err (e : ApiError)
deriving Repr, DecidableEq

/-- Python's `str.strip()`: drop whitespace from both ends. -/
def pyStrip (s : String) : String :=
  String.mk
    (((s.toList.dropWhile Char.isWhitespace).reverse.dropWhile
        Char.isWhitespace).reverse)

/-- In-place mutation of the first `Ticket` row matching a ticket number,
as done through `Ticket.query.filter_by(ticket_number=...).first()`. -/
def updateFirstTicket (l : List Ticket) (tn : String) (f : Ticket → Ticket) :
    List Ticket :=
  match l with
  | [] => []
  | t :: ts =>
      if t.ticket_number = tn then f t :: ts
      else t :: updateFirstTicket ts tn f

/-- In-place mutation of the first `TableAssignment` row with a given id. -/
def updateFirstAssign (l : List TableAssignment) (i : Nat)
    (f : TableAssignment → TableAssignment) : List TableAssignment :=
  match l with
  | [] => []
  | a :: as_ =>
      if a.id = i then f a :: as_
      else a :: updateFirstAssign as_ i f

/-- `db.session.delete` of the `TableAssignment` row with a given id. -/
def removeFirstAssign (l : List TableAssignment) (i : Nat) :
    List TableAssignment :=
  match l with
  | [] => []
  | a :: as_ => if a.id = i then as_ else a :: removeFirstAssign as_ i

/-- `db.session.delete` of the `BlockedTable` row for a given table. -/
def removeFirstBlock (l : List BlockedTable) (t : Int) : List BlockedTable :=
  match l with
  | [] => []
  | b :: bs => if b.table_number = t then bs else b :: removeFirstBlock bs t

/-- Boolean pairwise distinctness, used for the unique constraint on
`TableAssignment.ticket_number` that `db.session.commit` enforces. -/
def nodupStr (l : List String) : Bool :=
  match l with
  | [] => true
  | x :: xs => !(xs.contains x) && nodupStr xs

/-- Occupancy query `TableAssignment.query.filter_by(table_number=t).count()`. -/
def occupancy (s : DBState) (t : Int) : Nat :=
  (s.assignments.filter (fun a => a.table_number = t)).length

/-- Query `Ticket.query.filter_by(ticket_number=tn).first()`. -/
def findTicket (s : DBState) (tn : String) : Option Ticket :=
  s.tickets.find? (fun t => t.ticket_number = tn)

/-- Query `TableAssignment.query.filter_by(ticket_number=tn).first()`. -/
def findAssignByTicket (s : DBState) (tn : String) : Option TableAssignment :=
  s.assignments.find? (fun a => a.ticket_number = tn)

/-- Query `TableAssignment.query.get(assignment_id)`. -/
def findAssignById (s : DBState) (i : Nat) : Option TableAssignment :=
  s.assignments.find? (fun a => a.id = i)

/-- Query `BlockedTable.query.filter_by(table_number=t).first()`. -/
def findBlock (s : DBState) (t : Int) : Option BlockedTable :=
  s.blocked.find? (fun b => b.table_number = t)

/-- One entry of the request body of `/api/validate-tickets`. -/
structure TicketEntry where
  ticket_number : String
  full_name : String
deriving Repr, DecidableEq

/-- One element of `validated_guests` as built by `validate_tickets`. -/
structure Guest where
  ticket_number : String
  full_name : String
  original_name : String
deriving Repr, DecidableEq

/-- Result of the `validate_tickets` helper: Python's
`(True, validated_guests, None)` or `(False, [], error_message)`. -/
inductive VResult where
  | ok (guests : List Guest)
  | err (e : ApiError)
deriving Repr, DecidableEq

/-- The loop body of `validate_tickets` (app.py lines 91-129); `seen` is the
accumulated `ticket_numbers_in_request` list. -/
def validate_tickets (s : DBState) (seen : List String) :
    List TicketEntry → VResult
  | [] => .ok []
  | d :: rest =>
      let tn := pyStrip d.ticket_number
      let fn := pyStrip d.full_name
      if tn = "" ∨ fn = "" then .err .allFieldsRequired
      else if seen.contains tn then .err (.duplicateTicket tn)
      else
        match findTicket s tn with
        | none => .err (.invalidTicket tn)
        | some t =>
            if t.is_used then
              match findAssignByTicket s tn with
              | some a => .err (.ticketAssignedTo tn a.table_number)
              | none => .err (.ticketAlreadyUsed tn)
            else
              match validate_tickets s (tn :: seen) rest with
              | .ok gs =>
                  .ok ({ ticket_number := tn, full_name := fn,
                         original_name := t.full_name } :: gs)
              | .err e => .err e

/-- Route `/api/validate-tickets` (app.py lines 147-172): reads the database,
never writes it; on success stores the staged guests in the session. -/
def validate_tickets_api (s : DBState) (sess : SessionState)
    (tickets : List TicketEntry) : DBState × SessionState × Resp :=
  if tickets = [] then (s, sess, .err .noTickets)
  else
    match validate_tickets s [] tickets with
    | .err e => (s, sess, .err e)
    | .ok gs =>
        (s, { guests := some (gs.map (fun g => g.ticket_number)),
              ticket_numbers := gs.map (fun g => g.ticket_number) }, .ok)

/-- One record of the snapshot computed by `get_table_status`. -/
structure TableStatus where
  number : Int
  capacity : Nat
  occupied : Nat
  available : Int
  is_full : Bool
  is_blocked : Bool
  block_reason : String
  occupants : List (String × String)
deriving Repr, DecidableEq

/-- Helper `get_table_status` (app.py lines 60-89): the per-table snapshot
for tables 1..TOTAL_TABLES in order. -/
def get_table_status (s : DBState) : List TableStatus :=
  (List.range TOTAL_TABLES).map (fun (i : Nat) =>
    let n : Int := (i : Int) + 1
    let asg := s.assignments.filter (fun a => a.table_number = n)
    { number := n
      capacity := SEATS_PER_TABLE
      occupied := asg.length
      available := (SEATS_PER_TABLE : Int) - (asg.length : Int)
      is_full := decide (SEATS_PER_TABLE ≤ asg.length)
      is_blocked := (findBlock s n).isSome
      block_reason := ((findBlock s n).map (fun b => b.reason)).getD ""
      occupants := asg.map (fun a => (a.ticket_number, a.full_name)) })

/-- One entry of the request body of `/api/assign-seats`. -/
structure AssignReq where
  ticket_number : String
  full_name : String
  table_number : Int
deriving Repr, DecidableEq

/-- The first loop of `assign_seats_api` (app.py lines 207-224): validate
every proposed entry against the pre-batch database snapshot, returning the
first failure.  Note the capacity read `occupancy s r.table_number` always
uses the same state `s`: entries applied earlier in the same batch are not
counted. -/
def assignValidate (s : DBState) (allowed : List String) :
    List AssignReq → Option ApiError
  | [] => none
  | r :: rest =>
      if !(allowed.contains r.ticket_number) then
        some (.invalidTicket r.ticket_number)
      else if SEATS_PER_TABLE ≤ occupancy s r.table_number then
        some (.tableNowFull r.table_number)
      else
        match findBlock s r.table_number with
        | some _ => some (.tableBlocked r.table_number)
        | none => assignValidate s allowed rest

/-- The second loop of `assign_seats_api` (app.py lines 227-244): stage one
`TableAssignment` row per entry and mark the ticket used (when it exists). -/
def assignCommit (s : DBState) (now : Nat) : List AssignReq → DBState
  | [] => s
  | r :: rest =>
      assignCommit
        { s with
          assignments := s.assignments ++
            [{ id := s.nextId, ticket_number := r.ticket_number,
               full_name := r.full_name, table_number := r.table_number,
               assigned_at := now }]
          tickets := updateFirstTicket s.tickets r.ticket_number
            (fun t => { t with is_used := true, used_at := some now })
          nextId := s.nextId + 1 }
        now rest

/-- Route `/api/assign-seats` (app.py lines 195-261).  `db.session.commit`
succeeds only if the unique constraint on `TableAssignment.ticket_number`
holds in the staged state; otherwise the `except` clause rolls back and
answers a generic 500 error. -/
def assign_seats_api (s : DBState) (sess : SessionState)
    (reqs : List AssignReq) (now : Nat) : DBState × Resp :=
  if sess.guests.isNone then (s, .err .sessionExpired)
  else if reqs = [] then (s, .err .noAssignments)
  else
    match assignValidate s sess.ticket_numbers reqs with
    | some e => (s, .err e)
    | none =>
        let staged := assignCommit s now reqs
        if nodupStr (staged.assignments.map (fun a => a.ticket_number)) then
          (staged, .ok)
        else (s, .err .serverError)

/-- Route `/api/admin/delete-any-assignment` (app.py lines 323-358). -/
def delete_any_assignment_api (s : DBState) (assignment_id : Nat) :
    DBState × Resp :=
  if assignment_id = 0 then (s, .err .assignmentIdRequired)
  else
    match findAssignById s assignment_id with
    | none => (s, .err .assignmentNotFound)
    | some a =>
        ({ s with
           assignments := removeFirstAssign s.assignments assignment_id
           tickets := updateFirstTicket s.tickets a.ticket_number
             (fun t => { t with is_used := false, used_at := none }) },
         .ok)

/-- Route `/api/admin/block-table` (app.py lines 360-388). -/
def block_table_api (s : DBState) (t : Int) (reason : String) :
    DBState × Resp :=
  if t = 0 ∨ t < 1 ∨ (TOTAL_TABLES : Int) < t then
    (s, .err .invalidTableNumber)
  else if (findBlock s t).isSome then (s, .err .alreadyBlockedTable)
  else
    ({ s with blocked := s.blocked ++ [{ table_number := t, reason := reason }] },
     .ok)

/-- Route `/api/admin/unblock-table` (app.py lines 390-415). -/
def unblock_table_api (s : DBState) (t : Int) : DBState × Resp :=
  if t = 0 then (s, .err .tableNumberRequired)
  else
    match findBlock s t with
    | none => (s, .err .notBlocked)
    | some _ => ({ s with blocked := removeFirstBlock s.blocked t }, .ok)

/-- Route `/api/admin/manual-assign` (app.py lines 528-594): privileged
path that skips the block check but not the capacity check, provisioning
the ticket when unknown. -/
def manual_assign_api (s : DBState) (t : Int) (tn : String) (name : String)
    (now : Nat) : DBState × Resp :=
  if t = 0 ∨ tn = "" ∨ name = "" then (s, .err .missingFields)
  else if t < 1 ∨ (TOTAL_TABLES : Int) < t then (s, .err .invalidTableNumber)
  else
    match findAssignByTicket s tn with
    | some existing =>
        (s, .err (.ticketAlreadyAssigned tn existing.table_number))
    | none =>
        if SEATS_PER_TABLE ≤ occupancy s t then
          (s, .err (.tableFull t (occupancy s t)))
        else
          let withAssign := s.assignments ++
            [{ id := s.nextId, ticket_number := tn, full_name := name,
               table_number := t, assigned_at := now }]
          let newTickets :=
            match findTicket s tn with
            | some _ => updateFirstTicket s.tickets tn
                (fun tk => { tk with is_used := true, used_at := some now })
            | none => s.tickets ++
                [{ ticket_number := tn, full_name := name, is_used := true,
                   used_at := some now }]
          ({ s with
             assignments := withAssign
             tickets := newTickets
             nextId := s.nextId + 1 }, .ok)

/-- Route `/api/admin/edit-assignment` (app.py lines 596-677).  `newTable`
is the raw JSON integer (0 models Python's falsy `None`/`0`, skipping the
table change).  The capacity failure answers before `db.session.commit`, so
the pending ticket mutations are rolled back at request teardown: the route
then leaves the database unchanged. -/
def edit_assignment_api (s : DBState) (assignment_id : Nat)
    (tnRaw nameRaw : String) (newTable : Int) (now : Nat) : DBState × Resp :=
  let new_tn := pyStrip tnRaw
  let new_name := pyStrip nameRaw
  if assignment_id = 0 then (s, .err .assignmentIdRequired)
  else
    match findAssignById s assignment_id with
    | none => (s, .err .assignmentNotFound)
    | some a =>
        let old_tn := a.ticket_number
        let old_table := a.table_number
        match
          (if new_tn ≠ "" ∧ new_tn ≠ old_tn then
            match findAssignByTicket s new_tn with
            | some existing =>
                .error (.ticketAlreadyAssigned new_tn existing.table_number)
            | none =>
                .ok { s with
                  tickets :=
                    (match findTicket s new_tn with
                     | some _ =>
                         updateFirstTicket
                           (updateFirstTicket s.tickets old_tn
                             (fun tk =>
                               { tk with is_used := false, used_at := none }))
                           new_tn
                           (fun tk =>
                             { tk with is_used := true, used_at := some now })
                     | none =>
                         updateFirstTicket s.tickets old_tn
                           (fun tk =>
                             { tk with is_used := false, used_at := none }) ++
                         [{ ticket_number := new_tn,
                            full_name :=
                              if new_name ≠ "" then new_name else a.full_name,
                            is_used := true, used_at := some now }])
                  assignments := updateFirstAssign s.assignments assignment_id
                    (fun x => { x with ticket_number := new_tn }) }
          else .ok s : Except ApiError DBState) with
        | .error e => (s, .err e)
        | .ok s2 =>
            let renamed :=
              updateFirstAssign s2.assignments assignment_id
                (fun x => { x with full_name := new_name })
            let s3 :=
              if new_name ≠ "" then { s2 with assignments := renamed } else s2
            if newTable ≠ 0 ∧ newTable ≠ old_table then
              if SEATS_PER_TABLE ≤ occupancy s3 newTable then
                (s, .err (.tableFull newTable (occupancy s3 newTable)))
              else
                let moved :=
                  updateFirstAssign s3.assignments assignment_id
                    (fun x => { x with table_number := newTable })
                ({ s3 with assignments := moved }, .ok)
            else (s3, .ok)

/-- Decimal integer literal body of Python's `int(str)` after stripping:
one or more digits with single underscores allowed between digit groups.
`acc` holds the value of the digits consumed so far. -/
def pyDigits (l : List Char) (acc : Nat) : Option Nat :=
  match l with
  | [] => some acc
  | '_' :: c :: cs =>
      if c.isDigit then pyDigits cs (acc * 10 + (c.toNat - 48)) else none
  | ['_'] => none
  | c :: cs =>
      if c.isDigit then pyDigits cs (acc * 10 + (c.toNat - 48)) else none

/-- Python's `int(s)` on an already-stripped string: optional sign followed
by a digit group; `none` models the raised `ValueError`. -/
def pyParseInt (s : String) : Option Int :=
  let body : List Char → Option Nat := fun l =>
    match l with
    | c :: cs => if c.isDigit then pyDigits cs (c.toNat - 48) else none
    | [] => none
  match s.toList with
  | '+' :: rest => (body rest).map (fun n => (n : Int))
  | '-' :: rest => (body rest).map (fun n => -(n : Int))
  | l => (body l).map (fun n => (n : Int))

/-- Route `/api/admin/add-ticket` (app.py lines 679-719): the numeric range
check runs before the duplicate check. -/
def add_ticket_api (s : DBState) (tnRaw nameRaw : String) : DBState × Resp :=
  let tn := pyStrip tnRaw
  let name := pyStrip nameRaw
  if tn = "" ∨ name = "" then (s, .err .ticketAndNameRequired)
  else
    match pyParseInt tn with
    | none => (s, .err .ticketNotANumber)
    | some k =>
        if k < 1 ∨ 1000 < k then (s, .err .ticketOutOfRange)
        else if (findTicket s tn).isSome then (s, .err (.ticketExists tn))
        else
          ({ s with tickets := s.tickets ++
              [{ ticket_number := tn, full_name := name, is_used := false,
                 used_at := none }] }, .ok)

/-!  Concrete database states used to evaluate the routes on explicit
inputs.  -/

/-- Tickets "1".."11" provisioned, "1".."9" consumed and committed to
table 1, which therefore holds 9 of its 10 seats; no table blocked. -/
def nineAtTableOne : DBState :=
  { tickets := (List.range 11).map (fun i =>
      { ticket_number := toString (i + 1), full_name := "G",
        is_used := decide (i < 9),
        used_at := if i < 9 then some 1 else none })
    assignments := (List.range 9).map (fun i =>
      { id := i + 1, ticket_number := toString (i + 1), full_name := "G",
        table_number := 1, assigned_at := 1 })
    blocked := []
    nextId := 10 }

/-- A single unconsumed ticket "1", empty ledger, no blocks. -/
def oneFreeTicket : DBState :=
  { tickets := [{ ticket_number := "1", full_name := "G", is_used := false,
                  used_at := none }]
    assignments := [], blocked := [], nextId := 1 }

/-- Ticket "1" consumed and bound to table 2 by assignment 1. -/
def boundTicketState : DBState :=
  { tickets := [{ ticket_number := "1", full_name := "G", is_used := true,
                  used_at := some 1 }]
    assignments := [{ id := 1, ticket_number := "1", full_name := "G",
                      table_number := 2, assigned_at := 1 }]
    blocked := [], nextId := 2 }

/-- Ticket "1" bound to table 1 by assignment 1, and table 1 blocked. -/
def blockedBoundState : DBState :=
  { tickets := [{ ticket_number := "1", full_name := "G", is_used := true,
                  used_at := some 1 }]
    assignments := [{ id := 1, ticket_number := "1", full_name := "G",
                      table_number := 1, assigned_at := 1 }]
    blocked := [{ table_number := 1, reason := "VIP" }], nextId := 2 }

/-- Ticket "1" bound to table 1 by assignment 1, and table 2 blocked
with remaining capacity. -/
def movableState : DBState :=
  { tickets := [{ ticket_number := "1", full_name := "G", is_used := true,
                  used_at := some 1 }]
    assignments := [{ id := 1, ticket_number := "1", full_name := "G",
                      table_number := 1, assigned_at := 1 }]
    blocked := [{ table_number := 2, reason := "VIP" }], nextId := 2 }

/-- Registry holding the CSV-imported style, non-numeric ticket
"GALA-0001", unconsumed. -/
def galaState : DBState :=
  { tickets := [{ ticket_number := "GALA-0001", full_name := "John Smith",
                  is_used := false, used_at := none }]
    assignments := [], blocked := [], nextId := 1 }

/-!  Basic lemmas about the embedded queries and loops.  -/

lemma contains_true_iff_mem (l : List String) (x : String) :
    l.contains x = true ↔ x ∈ l :=
  List.elem_iff

lemma assignValidate_none_ok (s : DBState) (allowed : List String)
    (reqs : List AssignReq) (h : assignValidate s allowed reqs = none) :
    ∀ r ∈ reqs, allowed.contains r.ticket_number = true ∧
      occupancy s r.table_number < SEATS_PER_TABLE ∧
      findBlock s r.table_number = none := by
  induction reqs with
  | nil => intro r hr; cases hr
  | cons q rest ih =>
      intro r hr
      rw [assignValidate] at h
      cases h1 : allowed.contains q.ticket_number with
      | false => rw [h1] at h; simp at h
      | true =>
          rw [h1] at h
          simp only [Bool.not_true, Bool.false_eq_true, if_false] at h
          by_cases h2 : SEATS_PER_TABLE ≤ occupancy s q.table_number
          · rw [if_pos h2] at h; cases h
          · rw [if_neg h2] at h
            cases hb : findBlock s q.table_number with
            | some b => rw [hb] at h; cases h
            | none =>
                rw [hb] at h
                rw [List.mem_cons] at hr
                rcases hr with rfl | hr
                · exact ⟨h1, by omega, hb⟩
                · exact ih h r hr

lemma assignCommit_assignments_map (now : Nat) (reqs : List AssignReq) :
    ∀ s : DBState,
      (assignCommit s now reqs).assignments.map (fun a => a.ticket_number) =
        s.assignments.map (fun a => a.ticket_number) ++
          reqs.map (fun r => r.ticket_number) := by
  induction reqs with
  | nil => intro s; simp [assignCommit]
  | cons q rest ih =>
      intro s
      rw [assignCommit, ih]
      simp

lemma nodupStr_append_false (x : String) (l1 l2 : List String)
    (h1 : x ∈ l1) (h2 : x ∈ l2) : nodupStr (l1 ++ l2) = false := by
  induction l1 with
  | nil => cases h1
  | cons h t ih =>
      rw [List.cons_append, nodupStr]
      rw [List.mem_cons] at h1
      rcases h1 with rfl | h1
      · have hc : (t ++ l2).contains x = true :=
          (contains_true_iff_mem _ _).mpr (List.mem_append_right _ h2)
        rw [hc]
        simp
      · simp [ih h1]

lemma nodupStr_iff_nodup (l : List String) :
    nodupStr l = true ↔ l.Nodup := by
  induction l with
  | nil => simp [nodupStr]
  | cons x xs ih =>
      rw [nodupStr]
      rw [Bool.and_eq_true, Bool.not_eq_true']
      rw [List.nodup_cons, ← ih]
      constructor
      · rintro ⟨h1, h2⟩
        refine ⟨fun hm => ?_, h2⟩
        rw [(contains_true_iff_mem xs x).mpr hm] at h1
        cases h1
      · rintro ⟨h1, h2⟩
        refine ⟨?_, h2⟩
        cases hc : xs.contains x with
        | false => rfl
        | true => exact absurd ((contains_true_iff_mem xs x).mp hc) h1

lemma find?_updateFirstTicket_self (l : List Ticket) (tn : String)
    (f : Ticket → Ticket) (tk : Ticket)
    (h : l.find? (fun t => t.ticket_number = tn) = some tk)
    (hf : (f tk).ticket_number = tk.ticket_number) :
    (updateFirstTicket l tn f).find? (fun t => t.ticket_number = tn) =
      some (f tk) := by
  induction l with
  | nil => cases h
  | cons b bs ih =>
      rw [updateFirstTicket]
      by_cases hb : b.ticket_number = tn
      · rw [if_pos hb]
        simp only [List.find?_cons, hb, decide_True] at h
        cases h
        simp [List.find?_cons, hf, hb]
      · rw [if_neg hb]
        simp only [List.find?_cons, hb, decide_False] at h
        simp only [List.find?_cons, hb, decide_False]
        exact ih h

lemma find?_updateFirstTicket_other (l : List Ticket) (tn x : String)
    (f : Ticket → Ticket) (hx : x ≠ tn)
    (hf : ∀ t, (f t).ticket_number = t.ticket_number) :
    (updateFirstTicket l tn f).find? (fun t => t.ticket_number = x) =
      l.find? (fun t => t.ticket_number = x) := by
  induction l with
  | nil => rfl
  | cons b bs ih =>
      rw [updateFirstTicket]
      by_cases hb : b.ticket_number = tn
      · rw [if_pos hb]
        have hbx : ¬b.ticket_number = x := by
          intro hbx; exact hx (by rw [← hbx, hb])
        simp only [List.find?_cons, hf b, hbx, decide_False]
      · rw [if_neg hb]
        by_cases hbx : b.ticket_number = x
        · simp only [List.find?_cons, hbx, decide_True]
        · simp only [List.find?_cons, hbx, decide_False]
          exact ih

lemma map_ticket_updateFirstTicket (l : List Ticket) (tn : String)
    (f : Ticket → Ticket)
    (hf : ∀ t, (f t).ticket_number = t.ticket_number) :
    (updateFirstTicket l tn f).map (fun t => t.ticket_number) =
      l.map (fun t => t.ticket_number) := by
  induction l with
  | nil => rfl
  | cons b bs ih =>
      rw [updateFirstTicket]
      by_cases hb : b.ticket_number = tn
      · rw [if_pos hb]; simp [hf]
      · rw [if_neg hb]; simp [ih]

lemma find?_updateFirstAssign_self (l : List TableAssignment) (i : Nat)
    (f : TableAssignment → TableAssignment) (a : TableAssignment)
    (h : l.find? (fun x => x.id = i) = some a) (hf : (f a).id = a.id) :
    (updateFirstAssign l i f).find? (fun x => x.id = i) = some (f a) := by
  induction l with
  | nil => cases h
  | cons b bs ih =>
      rw [updateFirstAssign]
      by_cases hb : b.id = i
      · rw [if_pos hb]
        simp only [List.find?_cons, hb, decide_True] at h
        cases h
        simp [List.find?_cons, hf, hb]
      · rw [if_neg hb]
        simp only [List.find?_cons, hb, decide_False] at h
        simp only [List.find?_cons, hb, decide_False]
        exact ih h

lemma removeFirstAssign_decomp (l : List TableAssignment) (i : Nat)
    (a : TableAssignment) (h : l.find? (fun x => x.id = i) = some a) :
    ∃ l1 l2, l = l1 ++ a :: l2 ∧ removeFirstAssign l i = l1 ++ l2 := by
  induction l with
  | nil => cases h
  | cons b bs ih =>
      by_cases hb : b.id = i
      · simp only [List.find?_cons, hb, decide_True] at h
        cases h
        exact ⟨[], bs, (List.nil_append _).symm,
          by rw [removeFirstAssign, if_pos hb]; exact (List.nil_append _).symm⟩
      · simp only [List.find?_cons, hb, decide_False] at h
        obtain ⟨l1, l2, hdec, hrem⟩ := ih h
        exact ⟨b :: l1, l2, by rw [hdec]; simp,
          by rw [removeFirstAssign, if_neg hb, hrem]; simp⟩

/-- Evaluation of `edit_assignment_api` when only a table change is
requested (empty ticket number and name): the L653-663 branch is reached
and checks nothing but capacity. -/
lemma edit_move_table (s : DBState) (aid : Nat) (a : TableAssignment)
    (nt : Int) (now : Nat) (hid : aid ≠ 0)
    (ha : findAssignById s aid = some a)
    (h0 : nt ≠ 0) (hne : nt ≠ a.table_number) :
    edit_assignment_api s aid "" "" nt now =
      if SEATS_PER_TABLE ≤ occupancy s nt then
        (s, Resp.err (ApiError.tableFull nt (occupancy s nt)))
      else
        ({ s with
           assignments := updateFirstAssign s.assignments aid
             (fun x => { x with table_number := nt }) },
         Resp.ok) := by
  have htrim : pyStrip "" = "" := rfl
  by_cases hcap : SEATS_PER_TABLE ≤ occupancy s nt
  · rw [if_pos hcap]
    simp [edit_assignment_api, if_neg hid, ha, htrim, hcap, h0, hne]
  · rw [if_neg hcap]
    simp [edit_assignment_api, if_neg hid, ha, htrim, hcap, h0, hne]

/-- C1: the capacity check of `assign_seats_api` reads only the pre-batch
snapshot, so a batch of two guests aimed at a table holding 9 of its 10
seats is accepted and leaves the table with 11 assignments, violating the
per-table capacity invariant the batch was supposed to preserve. -/
theorem c1_batch_overfills_table :
    (assign_seats_api nineAtTableOne ⟨some [], ["10", "11"]⟩
        [⟨"10", "A", 1⟩, ⟨"11", "B", 1⟩] 5).2 = Resp.ok ∧
    occupancy (assign_seats_api nineAtTableOne ⟨some [], ["10", "11"]⟩
        [⟨"10", "A", 1⟩, ⟨"11", "B", 1⟩] 5).1 1 = 11 ∧
    SEATS_PER_TABLE <
      occupancy (assign_seats_api nineAtTableOne ⟨some [], ["10", "11"]⟩
          [⟨"10", "A", 1⟩, ⟨"11", "B", 1⟩] 5).1 1 := by
  decide

/-- C4 counterexample: `assign_seats_api` performs no table-range check,
so a staged ticket is committed to table 26 (outside `[1, TOTAL_TABLES]`)
with a success response and no `InvalidTableError`. -/
theorem c4_counterexample :
    (assign_seats_api oneFreeTicket ⟨some [], ["1"]⟩ [⟨"1", "A", 26⟩] 5).2 =
      Resp.ok ∧
    ((assign_seats_api oneFreeTicket ⟨some [], ["1"]⟩ [⟨"1", "A", 26⟩]
        5).1.assignments.map (fun a => a.table_number)) = [26] := by
  decide

/-- C3 counterexample: a batch proposing ticket "1", already bound to
table 2, passes the validation loop (which never re-checks bindings) and
dies at commit on the unique constraint: the response is the generic
rolled-back 500 error, not an error naming table 2. -/
theorem c3_counterexample :
    assign_seats_api boundTicketState ⟨some [], ["1"]⟩ [⟨"1", "B", 3⟩] 5 =
      (boundTicketState, Resp.err ApiError.serverError) ∧
    (assign_seats_api boundTicketState ⟨some [], ["1"]⟩ [⟨"1", "B", 3⟩] 5).2 ≠
      Resp.err (ApiError.ticketAlreadyAssigned "1" 2) := by
  decide

/-- C6 counterexample: deleting the assignment of ticket "1" on blocked
table 1 frees the ticket, but the re-`assignBatch` of the same ticket to
the same table is rejected because the table is blocked, so the
release/reacquire round-trip fails. -/
theorem c6_counterexample :
    (delete_any_assignment_api blockedBoundState 1).2 = Resp.ok ∧
    findTicket (delete_any_assignment_api blockedBoundState 1).1 "1" =
      some { ticket_number := "1", full_name := "G", is_used := false,
             used_at := none } ∧
    assign_seats_api (delete_any_assignment_api blockedBoundState 1).1
        ⟨some [], ["1"]⟩ [⟨"1", "G", 1⟩] 5 =
      ((delete_any_assignment_api blockedBoundState 1).1,
       Resp.err (ApiError.tableBlocked 1)) := by
  decide

/-- C2: when some proposed entry fails the validation loop of
`assign_seats_api` (ticket not in the staged session set, target table
already full, or target table blocked, all judged against the pre-call
state), the call answers an error and the database — Ledger, Registry,
blocks — is exactly the pre-call state: nothing of the batch is inserted
and no ticket becomes consumed. -/
theorem c2_failed_validation_is_atomic (s : DBState) (sess : SessionState)
    (reqs : List AssignReq) (now : Nat)
    (hfail : ∃ r ∈ reqs, sess.ticket_numbers.contains r.ticket_number = false ∨
      SEATS_PER_TABLE ≤ occupancy s r.table_number ∨
      (findBlock s r.table_number).isSome = true) :
    (assign_seats_api s sess reqs now).1 = s ∧
    ∃ e, (assign_seats_api s sess reqs now).2 = Resp.err e := by
  unfold assign_seats_api
  split
  · exact ⟨rfl, _, rfl⟩
  · split
    · exact ⟨rfl, _, rfl⟩
    · cases hv : assignValidate s sess.ticket_numbers reqs with
      | some e => simp [hv]
      | none =>
          exfalso
          obtain ⟨r, hr, hcase⟩ := hfail
          have h3 := assignValidate_none_ok s sess.ticket_numbers reqs hv r hr
          rcases hcase with h | h | h
          · rw [h3.1] at h; cases h
          · have := h3.2.1; omega
          · rw [h3.2.2] at h; cases h

/-- Witness for C2 at a concrete input: the single proposed ticket "1" is
not in the (empty) staged set, so the state is returned unchanged with an
error. -/
theorem c2_failed_validation_is_atomic_witness :
    (assign_seats_api oneFreeTicket ⟨some [], []⟩ [⟨"1", "A", 1⟩] 5).1 =
      oneFreeTicket ∧
    ∃ e, (assign_seats_api oneFreeTicket ⟨some [], []⟩ [⟨"1", "A", 1⟩] 5).2 =
      Resp.err e :=
  c2_failed_validation_is_atomic oneFreeTicket ⟨some [], []⟩ [⟨"1", "A", 1⟩] 5
    ⟨⟨"1", "A", 1⟩, by simp, Or.inl rfl⟩

/-- C3 amended: the commit path of `assign_seats_api` performs no re-check
of existing ticket bindings; when a proposed ticket is already bound in
the Ledger the staged batch dies at `db.session.commit` on the unique
constraint, producing the generic rolled-back 500 error (which names no
table) — and indeed no entry of the batch is committed. -/
theorem c3_bound_ticket_generic_rollback (s : DBState) (sess : SessionState)
    (reqs : List AssignReq) (now : Nat) (r : AssignReq)
    (hg : sess.guests.isSome)
    (hv : assignValidate s sess.ticket_numbers reqs = none)
    (hr : r ∈ reqs)
    (hb : ∃ a ∈ s.assignments, a.ticket_number = r.ticket_number) :
    assign_seats_api s sess reqs now = (s, Resp.err ApiError.serverError) := by
  have hne : reqs ≠ [] := by rintro rfl; cases hr
  have hdup : nodupStr ((assignCommit s now reqs).assignments.map
      (fun a => a.ticket_number)) = false := by
    rw [assignCommit_assignments_map]
    obtain ⟨a, ha, htn⟩ := hb
    exact nodupStr_append_false r.ticket_number _ _
      (List.mem_map.mpr ⟨a, ha, htn⟩)
      (List.mem_map.mpr ⟨r, hr, rfl⟩)
  obtain ⟨g, hgeq⟩ := Option.isSome_iff_exists.mp hg
  unfold assign_seats_api
  rw [hgeq]
  rw [if_neg (by simp)]
  rw [if_neg (by simpa using hne)]
  rw [hv]
  simp [hdup]

/-- Witness for C3's amended statement at a concrete input: ticket "1" is
already bound to table 2 and proposed again for table 3. -/
theorem c3_bound_ticket_generic_rollback_witness :
    assign_seats_api boundTicketState ⟨some [], ["1"]⟩ [⟨"1", "B", 3⟩] 5 =
      (boundTicketState, Resp.err ApiError.serverError) :=
  c3_bound_ticket_generic_rollback boundTicketState ⟨some [], ["1"]⟩
    [⟨"1", "B", 3⟩] 5 ⟨"1", "B", 3⟩ rfl (by decide) (by simp)
    ⟨{ id := 1, ticket_number := "1", full_name := "G", table_number := 2,
       assigned_at := 1 }, by decide, rfl⟩

/-- C4 amended: only `block_table_api` and `manual_assign_api` reject an
out-of-range table number with the invalid-table error; `assign_seats_api`
and `edit_assignment_api` perform no range check at all (and will create,
resp. move, an assignment onto a table outside `[1, TOTAL_TABLES]` with a
success response), while `unblock_table_api` answers the not-blocked error
rather than the invalid-table error. -/
theorem c4_amended (s : DBState) (t : Int) (reason tn name : String)
    (now : Nat) (hout : t < 1 ∨ (TOTAL_TABLES : Int) < t) :
    block_table_api s t reason = (s, Resp.err ApiError.invalidTableNumber) ∧
    (t ≠ 0 → tn ≠ "" → name ≠ "" →
      manual_assign_api s t tn name now =
        (s, Resp.err ApiError.invalidTableNumber)) ∧
    ((assign_seats_api oneFreeTicket ⟨some [], ["1"]⟩ [⟨"1", "A", t⟩]
        now).2 = Resp.ok ∧
      (assign_seats_api oneFreeTicket ⟨some [], ["1"]⟩ [⟨"1", "A", t⟩]
          now).1.assignments.map (fun a => a.table_number) = [t]) ∧
    (t ≠ 0 →
      (edit_assignment_api boundTicketState 1 "" "" t now).2 = Resp.ok ∧
      (edit_assignment_api boundTicketState 1 "" "" t
          now).1.assignments.map (fun a => a.table_number) = [t]) ∧
    (t ≠ 0 → unblock_table_api oneFreeTicket t =
      (oneFreeTicket, Resp.err ApiError.notBlocked)) := by
  refine ⟨?_, ?_, ?_, ?_, ?_⟩
  · unfold block_table_api
    rw [if_pos (Or.inr hout)]
  · intro h0 htn hname
    unfold manual_assign_api
    rw [if_neg (by simp [h0, htn, hname])]
    rw [if_pos hout]
  · exact ⟨rfl, rfl⟩
  · intro h0
    rw [show (TOTAL_TABLES : Int) = 25 from rfl] at hout
    have h2 : t ≠ (2 : Int) := by omega
    have h2s : ¬((2 : Int) = t) := fun h => h2 h.symm
    have hocc : occupancy boundTicketState t = 0 := by
      simp [occupancy, boundTicketState, h2s]
    rw [edit_move_table boundTicketState 1
      { id := 1, ticket_number := "1", full_name := "G", table_number := 2,
        assigned_at := 1 } t now (by decide) (by decide) h0 h2]
    rw [hocc]
    rw [if_neg (by decide)]
    exact ⟨rfl, rfl⟩
  · intro h0
    unfold unblock_table_api
    rw [if_neg h0]
    rfl

/-- Witness for C4's amended statement at table 26: block and
manual-assign reject it as invalid, unblock reports not-blocked. -/
theorem c4_amended_witness :
    block_table_api oneFreeTicket 26 "R" =
      (oneFreeTicket, Resp.err ApiError.invalidTableNumber) ∧
    manual_assign_api oneFreeTicket 26 "9" "N" 5 =
      (oneFreeTicket, Resp.err ApiError.invalidTableNumber) ∧
    unblock_table_api oneFreeTicket 26 =
      (oneFreeTicket, Resp.err ApiError.notBlocked) :=
  ⟨(c4_amended oneFreeTicket 26 "R" "9" "N" 5 (Or.inr (by decide))).1,
   (c4_amended oneFreeTicket 26 "R" "9" "N" 5 (Or.inr (by decide))).2.1
     (by decide) (by decide) (by decide),
   (c4_amended oneFreeTicket 26 "R" "9" "N" 5 (Or.inr (by decide))).2.2.2.2
     (by decide)⟩

/-- C5: when `edit_assignment_api` changes an assignment's table, it fails
with the table-full error exactly when the destination already holds
`SEATS_PER_TABLE` assignments, and it never consults the destination's
block entry: with a blocked destination of remaining capacity the move
succeeds. -/
theorem c5_edit_checks_capacity_not_block (s : DBState) (aid : Nat)
    (a : TableAssignment) (nt : Int) (now : Nat)
    (hid : aid ≠ 0) (ha : findAssignById s aid = some a)
    (h0 : nt ≠ 0) (hne : nt ≠ a.table_number)
    (hblocked : (findBlock s nt).isSome = true) :
    (occupancy s nt < SEATS_PER_TABLE →
      (edit_assignment_api s aid "" "" nt now).2 = Resp.ok ∧
      findAssignById (edit_assignment_api s aid "" "" nt now).1 aid =
        some { a with table_number := nt }) ∧
    (SEATS_PER_TABLE ≤ occupancy s nt →
      edit_assignment_api s aid "" "" nt now =
        (s, Resp.err (ApiError.tableFull nt (occupancy s nt)))) := by
  rw [edit_move_table s aid a nt now hid ha h0 hne]
  constructor
  · intro hcap
    rw [if_neg (not_le.mpr hcap)]
    exact ⟨rfl,
      find?_updateFirstAssign_self s.assignments aid _ a ha rfl⟩
  · intro hcap
    rw [if_pos hcap]

/-- Witness for C5: assignment 1 sits on table 1, table 2 is blocked with
free capacity, and the edit moves it into table 2 successfully. -/
theorem c5_edit_checks_capacity_not_block_witness :
    (edit_assignment_api movableState 1 "" "" 2 7).2 = Resp.ok ∧
    findAssignById (edit_assignment_api movableState 1 "" "" 2 7).1 1 =
      some { id := 1, ticket_number := "1", full_name := "G",
             table_number := 2, assigned_at := 1 } :=
  (c5_edit_checks_capacity_not_block movableState 1
    { id := 1, ticket_number := "1", full_name := "G", table_number := 1,
      assigned_at := 1 } 2 7 (by decide) (by decide) (by decide) (by decide)
    (by decide)).1 (by decide)

/-- C6 amended: for a committed assignment whose table is not blocked
(and whose table occupancy respects the capacity invariant), deleting the
assignment succeeds and frees the bound ticket, and the subsequent
`assign_seats_api` of the same staged ticket to the same table succeeds,
re-creating a binding of that ticket to that table. -/
theorem c6_release_reacquire (s : DBState) (a : TableAssignment)
    (tk : Ticket) (name : String) (now : Nat)
    (hid : a.id ≠ 0)
    (ha : findAssignById s a.id = some a)
    (hnodup : nodupStr (s.assignments.map (fun x => x.ticket_number)) = true)
    (htk : findTicket s a.ticket_number = some tk)
    (hblk : findBlock s a.table_number = none)
    (hcap : occupancy s a.table_number ≤ SEATS_PER_TABLE) :
    (delete_any_assignment_api s a.id).2 = Resp.ok ∧
    findTicket (delete_any_assignment_api s a.id).1 a.ticket_number =
      some { tk with is_used := false, used_at := none } ∧
    (assign_seats_api (delete_any_assignment_api s a.id).1
        ⟨some [], [a.ticket_number]⟩
        [⟨a.ticket_number, name, a.table_number⟩] now).2 = Resp.ok ∧
    ∃ a2 ∈ (assign_seats_api (delete_any_assignment_api s a.id).1
        ⟨some [], [a.ticket_number]⟩
        [⟨a.ticket_number, name, a.table_number⟩] now).1.assignments,
      a2.ticket_number = a.ticket_number ∧
      a2.table_number = a.table_number := by
  have hd : delete_any_assignment_api s a.id =
      ({ s with
         assignments := removeFirstAssign s.assignments a.id
         tickets := updateFirstTicket s.tickets a.ticket_number
           (fun t => { t with is_used := false, used_at := none }) },
       Resp.ok) := by
    unfold delete_any_assignment_api
    rw [if_neg hid, ha]
  obtain ⟨l1, l2, hdec, hrem⟩ := removeFirstAssign_decomp s.assignments a.id a ha
  rw [hd]
  dsimp only
  refine ⟨rfl, ?_, ?_⟩
  · exact find?_updateFirstTicket_self s.tickets a.ticket_number _ tk htk rfl
  · have hocc_s : occupancy s a.table_number =
        ((l1.filter (fun x => x.table_number = a.table_number)).length +
          (l2.filter (fun x => x.table_number = a.table_number)).length) +
          1 := by
      unfold occupancy
      rw [hdec]
      simp [List.filter_append, List.filter_cons]
      omega
    have hocc_s1 :
        ((removeFirstAssign s.assignments a.id).filter
          (fun x => x.table_number = a.table_number)).length + 1 =
          occupancy s a.table_number := by
      rw [hrem, hocc_s]
      simp [List.filter_append]
    have hocc1 :
        ¬ SEATS_PER_TABLE ≤ occupancy
          { s with
            assignments := removeFirstAssign s.assignments a.id
            tickets := updateFirstTicket s.tickets a.ticket_number
              (fun t => { t with is_used := false, used_at := none }) }
          a.table_number := by
      unfold occupancy
      dsimp only
      omega
    have hblk1 : findBlock
        { s with
          assignments := removeFirstAssign s.assignments a.id
          tickets := updateFirstTicket s.tickets a.ticket_number
            (fun t => { t with is_used := false, used_at := none }) }
        a.table_number = none := by
      unfold findBlock at hblk ⊢
      exact hblk
    have hval : assignValidate
        { s with
          assignments := removeFirstAssign s.assignments a.id
          tickets := updateFirstTicket s.tickets a.ticket_number
            (fun t => { t with is_used := false, used_at := none }) }
        [a.ticket_number] [⟨a.ticket_number, name, a.table_number⟩] =
        none := by
      rw [assignValidate]
      rw [if_neg (by simp)]
      rw [if_neg hocc1]
      rw [hblk1]
      rfl
    have hnodup1 : nodupStr ((assignCommit
        { s with
          assignments := removeFirstAssign s.assignments a.id
          tickets := updateFirstTicket s.tickets a.ticket_number
            (fun t => { t with is_used := false, used_at := none }) }
        now [⟨a.ticket_number, name, a.table_number⟩]).assignments.map
          (fun x => x.ticket_number)) = true := by
      rw [assignCommit_assignments_map]
      dsimp only
      rw [hrem, nodupStr_iff_nodup]
      have hsrc : (s.assignments.map (fun x => x.ticket_number)).Nodup :=
        (nodupStr_iff_nodup _).mp hnodup
      rw [hdec] at hsrc
      rw [List.map_append, List.map_cons] at hsrc
      rw [List.map_append]
      have hperm :
          (l1.map (fun x => x.ticket_number) ++
            a.ticket_number :: l2.map (fun x => x.ticket_number)).Perm
          ((l1.map (fun x => x.ticket_number) ++
            l2.map (fun x => x.ticket_number)) ++ [a.ticket_number]) :=
        List.perm_middle.trans (List.perm_append_singleton _ _).symm
      exact hperm.nodup hsrc
    unfold assign_seats_api
    rw [if_neg (by simp)]
    rw [if_neg (by simp)]
    rw [hval, if_pos hnodup1]
    refine ⟨rfl, ?_⟩
    have hcommit : (assignCommit
        { s with
          assignments := removeFirstAssign s.assignments a.id
          tickets := updateFirstTicket s.tickets a.ticket_number
            (fun t => { t with is_used := false, used_at := none }) }
        now [⟨a.ticket_number, name, a.table_number⟩]).assignments =
        removeFirstAssign s.assignments a.id ++
          [{ id := s.nextId, ticket_number := a.ticket_number,
             full_name := name, table_number := a.table_number,
             assigned_at := now }] := by
      rw [assignCommit, assignCommit]
    rw [hcommit]
    exact ⟨_, List.mem_append_right _ (List.mem_singleton_self _), rfl, rfl⟩

/-- Witness for C6's amended statement: the single assignment of ticket
"1" on the unblocked table 2 is deleted and successfully re-acquired. -/
theorem c6_release_reacquire_witness :
    (delete_any_assignment_api boundTicketState 1).2 = Resp.ok ∧
    findTicket (delete_any_assignment_api boundTicketState 1).1 "1" =
      some { ticket_number := "1", full_name := "G", is_used := false,
             used_at := none } ∧
    (assign_seats_api (delete_any_assignment_api boundTicketState 1).1
        ⟨some [], ["1"]⟩ [⟨"1", "G", 2⟩] 9).2 = Resp.ok ∧
    ∃ a2 ∈ (assign_seats_api (delete_any_assignment_api boundTicketState 1).1
        ⟨some [], ["1"]⟩ [⟨"1", "G", 2⟩] 9).1.assignments,
      a2.ticket_number = "1" ∧ a2.table_number = 2 :=
  c6_release_reacquire boundTicketState
    { id := 1, ticket_number := "1", full_name := "G", table_number := 2,
      assigned_at := 1 }
    { ticket_number := "1", full_name := "G", is_used := true,
      used_at := some 1 }
    "G" 9 (by decide) (by decide) (by decide) (by decide) (by decide)
    (by decide)

lemma validate_ok_iff (s : DBState) (l : List TicketEntry) :
    ∀ seen : List String,
      (∃ gs, validate_tickets s seen l = .ok gs) ↔
        ((∀ d ∈ l, pyStrip d.ticket_number ≠ "" ∧ pyStrip d.full_name ≠ "" ∧
            ∃ t, findTicket s (pyStrip d.ticket_number) = some t ∧
              t.is_used = false) ∧
          (l.map (fun d => pyStrip d.ticket_number)).Nodup ∧
          ∀ d ∈ l, pyStrip d.ticket_number ∉ seen) := by
  induction l with
  | nil => intro seen; simp [validate_tickets]
  | cons d rest ih =>
      intro seen
      rw [validate_tickets]
      by_cases h1 : pyStrip d.ticket_number = "" ∨ pyStrip d.full_name = ""
      · rw [if_pos h1]
        constructor
        · rintro ⟨gs, hgs⟩; simp at hgs
        · rintro ⟨hall, _, _⟩
          have hd := hall d (List.mem_cons_self d rest)
          rcases h1 with h1 | h1 <;> simp [h1] at hd
      · rw [if_neg h1]
        push_neg at h1
        by_cases h2 : seen.contains (pyStrip d.ticket_number) = true
        · rw [if_pos h2]
          constructor
          · rintro ⟨gs, hgs⟩; simp at hgs
          · rintro ⟨_, _, hseen⟩
            exact absurd ((contains_true_iff_mem _ _).mp h2)
              (hseen d (List.mem_cons_self d rest))
        · rw [if_neg h2]
          cases hft : findTicket s (pyStrip d.ticket_number) with
          | none =>
              constructor
              · rintro ⟨gs, hgs⟩; simp at hgs
              · rintro ⟨hall, _, _⟩
                obtain ⟨_, _, t2, hft2, _⟩ := hall d (List.mem_cons_self d rest)
                rw [hft] at hft2; cases hft2
          | some t =>
              dsimp only
              by_cases hu : t.is_used = true
              · rw [if_pos hu]
                constructor
                · rintro ⟨gs, hgs⟩
                  rcases hfa : findAssignByTicket s (pyStrip d.ticket_number)
                    with _ | a <;> rw [hfa] at hgs <;> simp at hgs
                · rintro ⟨hall, _, _⟩
                  obtain ⟨_, _, t2, hft2, hu2⟩ :=
                    hall d (List.mem_cons_self d rest)
                  rw [hft] at hft2
                  cases hft2
                  simp [hu] at hu2
              · rw [if_neg hu]
                constructor
                · rintro ⟨gs, hgs⟩
                  cases hrest : validate_tickets s
                      (pyStrip d.ticket_number :: seen) rest with
                  | err e => rw [hrest] at hgs; simp at hgs
                  | ok gs2 =>
                      obtain ⟨hallr, hnodupr, hseenr⟩ :=
                        (ih (pyStrip d.ticket_number :: seen)).mp ⟨gs2, hrest⟩
                      refine ⟨?_, ?_, ?_⟩
                      · intro d2 hd2
                        rcases List.mem_cons.mp hd2 with rfl | hd2
                        · exact ⟨h1.1, h1.2, t, hft, by simpa using hu⟩
                        · exact hallr d2 hd2
                      · rw [List.map_cons, List.nodup_cons]
                        refine ⟨?_, hnodupr⟩
                        intro hmem
                        obtain ⟨d2, hd2, heq⟩ := List.mem_map.mp hmem
                        exact (hseenr d2 hd2)
                          (by rw [heq]; exact List.mem_cons_self _ _)
                      · intro d2 hd2
                        rcases List.mem_cons.mp hd2 with rfl | hd2
                        · exact fun hm =>
                            h2 ((contains_true_iff_mem _ _).mpr hm)
                        · exact fun hm =>
                            (hseenr d2 hd2) (List.mem_cons_of_mem _ hm)
                · rintro ⟨hall, hnd, hseen⟩
                  have hex : ∃ gs2, validate_tickets s
                      (pyStrip d.ticket_number :: seen) rest = .ok gs2 := by
                    apply (ih _).mpr
                    refine ⟨fun d2 hd2 =>
                      hall d2 (List.mem_cons_of_mem _ hd2), ?_, ?_⟩
                    · rw [List.map_cons, List.nodup_cons] at hnd
                      exact hnd.2
                    · intro d2 hd2 hm
                      rcases List.mem_cons.mp hm with heq | hm2
                      · rw [List.map_cons, List.nodup_cons] at hnd
                        exact hnd.1 (List.mem_map.mpr ⟨d2, hd2, heq⟩)
                      · exact (hseen d2 (List.mem_cons_of_mem _ hd2)) hm2
                  obtain ⟨gs2, hgs2⟩ := hex
                  rw [hgs2]
                  exact ⟨_, rfl⟩

lemma validate_err_assigned (s : DBState) (l : List TicketEntry) :
    ∀ (seen : List String) (tn : String) (t : Int),
      validate_tickets s seen l = .err (.ticketAssignedTo tn t) →
      ∃ a, findAssignByTicket s tn = some a ∧ a.table_number = t := by
  induction l with
  | nil => intro seen tn t h; simp [validate_tickets] at h
  | cons d rest ih =>
      intro seen tn t h
      rw [validate_tickets] at h
      by_cases h1 : pyStrip d.ticket_number = "" ∨ pyStrip d.full_name = ""
      · rw [if_pos h1] at h; simp at h
      · rw [if_neg h1] at h
        by_cases h2 : seen.contains (pyStrip d.ticket_number) = true
        · rw [if_pos h2] at h; simp at h
        · rw [if_neg h2] at h
          cases hft : findTicket s (pyStrip d.ticket_number) with
          | none => rw [hft] at h; simp at h
          | some tk =>
              rw [hft] at h
              dsimp only at h
              by_cases hu : tk.is_used = true
              · rw [if_pos hu] at h
                cases hfa : findAssignByTicket s (pyStrip d.ticket_number) with
                | none => rw [hfa] at h; simp at h
                | some a =>
                    rw [hfa] at h
                    simp only [VResult.err.injEq,
                      ApiError.ticketAssignedTo.injEq] at h
                    obtain ⟨rfl, rfl⟩ := h
                    exact ⟨a, hfa, rfl⟩
              · rw [if_neg hu] at h
                cases hrest : validate_tickets s
                    (pyStrip d.ticket_number :: seen) rest with
                | ok gs => rw [hrest] at h; simp at h
                | err e =>
                    rw [hrest] at h
                    simp only [VResult.err.injEq] at h
                    rw [h] at hrest
                    exact ih _ tn t hrest

/-- C7: `validate_tickets_api` never mutates the database (Registry with
its consumed flags, Ledger, blocks); the underlying `validate_tickets`
succeeds exactly when every entry has nonempty stripped fields, no
stripped ticket number repeats within the batch, every ticket is known to
the registry and unconsumed; and when it reports a consumed ticket as
assigned, the table it names is that of the existing Ledger binding. -/
theorem c7_validate_pure_and_complete (s : DBState) (sess : SessionState)
    (l : List TicketEntry) :
    (validate_tickets_api s sess l).1 = s ∧
    ((∃ gs, validate_tickets s [] l = .ok gs) ↔
      ((∀ d ∈ l, pyStrip d.ticket_number ≠ "" ∧ pyStrip d.full_name ≠ "" ∧
          ∃ t, findTicket s (pyStrip d.ticket_number) = some t ∧
            t.is_used = false) ∧
        (l.map (fun d => pyStrip d.ticket_number)).Nodup)) ∧
    (∀ tn t, validate_tickets s [] l = .err (.ticketAssignedTo tn t) →
      ∃ a, findAssignByTicket s tn = some a ∧ a.table_number = t) := by
  refine ⟨?_, ?_, ?_⟩
  · unfold validate_tickets_api
    split
    · rfl
    · split <;> rfl
  · have h := validate_ok_iff s l []
    simp only [List.not_mem_nil, not_false_iff, implies_true, and_true] at h
    exact h
  · exact fun tn t => validate_err_assigned s l [] tn t

/-- Witness for C7 at a concrete input: the frame property instantiated on
the registry holding ticket "GALA-0001". -/
theorem c7_validate_pure_and_complete_witness :
    (validate_tickets_api galaState ⟨none, []⟩
      [⟨"GALA-0001", "John"⟩]).1 = galaState :=
  (c7_validate_pure_and_complete galaState ⟨none, []⟩
    [⟨"GALA-0001", "John"⟩]).1

lemma get_table_status_length (s : DBState) :
    (get_table_status s).length = TOTAL_TABLES := by
  unfold get_table_status
  rw [List.length_map, List.length_range]

/-- C8: the snapshot has exactly `TOTAL_TABLES` records in table order
1..25, and record `i` reports the table number `i+1`, the fixed capacity,
the Ledger occupancy of that table, the remaining seats, fullness at
`occupied >= SEATS_PER_TABLE`, the block state and reason (empty when
unblocked), and one `(ticket, name)` pair per Ledger assignment of the
table. -/
theorem c8_snapshot_shape (s : DBState) (i : Fin TOTAL_TABLES) :
    (get_table_status s).length = TOTAL_TABLES ∧
    (let r := (get_table_status s).get
        (Fin.cast (get_table_status_length s).symm i)
     r.number = ((i : Nat) : Int) + 1 ∧
     r.capacity = SEATS_PER_TABLE ∧
     r.occupied = occupancy s (((i : Nat) : Int) + 1) ∧
     r.available = (SEATS_PER_TABLE : Int) -
       (occupancy s (((i : Nat) : Int) + 1) : Int) ∧
     (r.is_full = true ↔
       SEATS_PER_TABLE ≤ occupancy s (((i : Nat) : Int) + 1)) ∧
     (r.is_blocked = true ↔
       ∃ b ∈ s.blocked, b.table_number = ((i : Nat) : Int) + 1) ∧
     (∀ b, findBlock s (((i : Nat) : Int) + 1) = some b →
       r.block_reason = b.reason) ∧
     (findBlock s (((i : Nat) : Int) + 1) = none → r.block_reason = "") ∧
     r.occupants = (s.assignments.filter
        (fun a => a.table_number = ((i : Nat) : Int) + 1)).map
          (fun a => (a.ticket_number, a.full_name))) := by
  have hget : (get_table_status s).get
      (Fin.cast (get_table_status_length s).symm i) =
      { number := ((i : Nat) : Int) + 1
        capacity := SEATS_PER_TABLE
        occupied := occupancy s (((i : Nat) : Int) + 1)
        available := (SEATS_PER_TABLE : Int) -
          (occupancy s (((i : Nat) : Int) + 1) : Int)
        is_full := decide (SEATS_PER_TABLE ≤
          occupancy s (((i : Nat) : Int) + 1))
        is_blocked := (findBlock s (((i : Nat) : Int) + 1)).isSome
        block_reason := ((findBlock s (((i : Nat) : Int) + 1)).map
          (fun b => b.reason)).getD ""
        occupants := (s.assignments.filter
          (fun a => a.table_number = ((i : Nat) : Int) + 1)).map
            (fun a => (a.ticket_number, a.full_name)) } := by
    unfold get_table_status
    rw [List.get_eq_getElem, List.getElem_map, List.getElem_range]
    rfl
  refine ⟨get_table_status_length s, ?_⟩
  rw [hget]
  refine ⟨rfl, rfl, rfl, rfl, ?_, ?_, ?_, ?_, rfl⟩
  · exact decide_eq_true_iff
  · unfold findBlock
    rw [Option.isSome_iff_exists]
    constructor
    · rintro ⟨b, hb⟩
      exact ⟨b, List.mem_of_find?_eq_some hb, by
        simpa using List.find?_some hb⟩
    · rintro ⟨b, hmem, hbn⟩
      have : (s.blocked.find? fun b =>
          b.table_number = ((i : Nat) : Int) + 1).isSome = true := by
        rw [List.find?_isSome]
        exact ⟨b, hmem, by simpa using hbn⟩
      exact Option.isSome_iff_exists.mp this
  · intro b hb
    rw [hb]
    rfl
  · intro hb
    rw [hb]
    rfl

/-- C9: changing an assignment's ticket number to one unknown to the
registry provisions a new `Ticket` row in the same operation — consumed,
time-stamped, named by the supplied name or, failing that, the
assignment's existing holder name — while the old ticket, when present,
is freed; the edit succeeds rather than failing for lack of a registry
entry. -/
theorem c9_edit_provisions_unknown_ticket (s : DBState) (aid : Nat)
    (tnRaw nameRaw : String) (now : Nat) (a : TableAssignment)
    (hid : aid ≠ 0)
    (ha : findAssignById s aid = some a)
    (htn : pyStrip tnRaw ≠ "")
    (hne : pyStrip tnRaw ≠ a.ticket_number)
    (hnb : findAssignByTicket s (pyStrip tnRaw) = none)
    (hreg : findTicket s (pyStrip tnRaw) = none) :
    (edit_assignment_api s aid tnRaw nameRaw 0 now).2 = Resp.ok ∧
    findTicket (edit_assignment_api s aid tnRaw nameRaw 0 now).1
        (pyStrip tnRaw) =
      some { ticket_number := pyStrip tnRaw
             full_name := if pyStrip nameRaw ≠ "" then pyStrip nameRaw
               else a.full_name
             is_used := true
             used_at := some now } ∧
    (∀ oldTk, findTicket s a.ticket_number = some oldTk →
      findTicket (edit_assignment_api s aid tnRaw nameRaw 0 now).1
          a.ticket_number =
        some { oldTk with is_used := false, used_at := none }) ∧
    findAssignById (edit_assignment_api s aid tnRaw nameRaw 0 now).1 aid =
      some { a with
             ticket_number := pyStrip tnRaw
             full_name := if pyStrip nameRaw ≠ "" then pyStrip nameRaw
               else a.full_name } := by
  have heval : edit_assignment_api s aid tnRaw nameRaw 0 now =
      ({ s with
         tickets := updateFirstTicket s.tickets a.ticket_number
             (fun tk => { tk with is_used := false, used_at := none }) ++
           [{ ticket_number := pyStrip tnRaw
              full_name := if pyStrip nameRaw ≠ "" then pyStrip nameRaw
                else a.full_name
              is_used := true
              used_at := some now }]
         assignments :=
           if pyStrip nameRaw ≠ "" then
             updateFirstAssign (updateFirstAssign s.assignments aid
               (fun x => { x with ticket_number := pyStrip tnRaw })) aid
               (fun x => { x with full_name := pyStrip nameRaw })
           else
             updateFirstAssign s.assignments aid
               (fun x => { x with ticket_number := pyStrip tnRaw }) },
       Resp.ok) := by
    unfold edit_assignment_api
    rw [if_neg hid, ha]
    dsimp only
    rw [if_pos ⟨htn, hne⟩, hnb, hreg]
    dsimp only
    rw [if_neg (by simp : ¬((0 : Int) ≠ 0 ∧ (0 : Int) ≠ a.table_number))]
    by_cases hnm : pyStrip nameRaw ≠ ""
    · rw [if_pos hnm, if_pos hnm, if_pos hnm]
    · rw [if_neg hnm, if_neg hnm, if_neg hnm]
  have hpre : (updateFirstTicket s.tickets a.ticket_number
      (fun tk => { tk with is_used := false, used_at := none })).find?
        (fun t => t.ticket_number = pyStrip tnRaw) = none := by
    rw [find?_updateFirstTicket_other s.tickets a.ticket_number
      (pyStrip tnRaw)
      (fun tk => { tk with is_used := false, used_at := none })
      hne (fun t => rfl)]
    exact hreg
  rw [heval]
  refine ⟨rfl, ?_, ?_, ?_⟩
  · unfold findTicket
    dsimp only
    rw [List.find?_append, hpre]
    simp
  · intro oldTk hold
    unfold findTicket
    dsimp only
    rw [List.find?_append]
    rw [find?_updateFirstTicket_self s.tickets a.ticket_number _ oldTk hold
      rfl]
    rfl
  · unfold findAssignById
    dsimp only
    by_cases hnm : pyStrip nameRaw ≠ ""
    · rw [if_pos hnm, if_pos hnm]
      rw [find?_updateFirstAssign_self _ aid _
        { a with ticket_number := pyStrip tnRaw }
        (find?_updateFirstAssign_self s.assignments aid _ a ha rfl) rfl]
    · rw [if_neg hnm, if_neg hnm]
      rw [find?_updateFirstAssign_self s.assignments aid _ a ha rfl]

/-- Witness for C9 at a concrete input: assignment 1 is re-ticketed from
"1" to the unknown number "99" with a new name. -/
theorem c9_edit_provisions_unknown_ticket_witness :
    (edit_assignment_api movableState 1 "99" "New Name" 0 7).2 = Resp.ok ∧
    findTicket (edit_assignment_api movableState 1 "99" "New Name" 0 7).1
        (pyStrip "99") =
      some { ticket_number := pyStrip "99"
             full_name := if pyStrip "New Name" ≠ "" then pyStrip "New Name"
               else "G"
             is_used := true
             used_at := some 7 } ∧
    (∀ oldTk, findTicket movableState "1" = some oldTk →
      findTicket (edit_assignment_api movableState 1 "99" "New Name" 0 7).1
          "1" =
        some { oldTk with is_used := false, used_at := none }) ∧
    findAssignById
        (edit_assignment_api movableState 1 "99" "New Name" 0 7).1 1 =
      some { id := 1, ticket_number := pyStrip "99",
             full_name :=
               if pyStrip "New Name" ≠ "" then pyStrip "New Name" else "G",
             table_number := 1, assigned_at := 1 } :=
  c9_edit_provisions_unknown_ticket movableState 1 "99" "New Name" 7
    { id := 1, ticket_number := "1", full_name := "G", table_number := 1,
      assigned_at := 1 }
    (by decide) (by decide) (by decide) (by decide) (by decide) (by decide)

/-- C10: the admin add-ticket route accepts only ticket numbers parsing
as integers in `[1, 1000]`; any other string is rejected with a
validation error before the duplicate-existence check (the rejection
happens for every registry state, including one already holding that
number), while non-numeric numbers such as the CSV-imported "GALA-0001"
validate fine through the guest path. -/
theorem c10_add_ticket_numeric_gate (s : DBState) (tnRaw nameRaw : String) :
    (pyStrip tnRaw ≠ "" → pyStrip nameRaw ≠ "" →
      pyParseInt (pyStrip tnRaw) = none →
      add_ticket_api s tnRaw nameRaw =
        (s, Resp.err ApiError.ticketNotANumber)) ∧
    (∀ k, pyStrip tnRaw ≠ "" → pyStrip nameRaw ≠ "" →
      pyParseInt (pyStrip tnRaw) = some k → (k < 1 ∨ 1000 < k) →
      add_ticket_api s tnRaw nameRaw =
        (s, Resp.err ApiError.ticketOutOfRange)) ∧
    ((add_ticket_api s tnRaw nameRaw).2 = Resp.ok →
      ∃ k, pyParseInt (pyStrip tnRaw) = some k ∧ 1 ≤ k ∧ k ≤ 1000) ∧
    validate_tickets galaState [] [⟨"GALA-0001", "John Smith"⟩] =
      VResult.ok [{ ticket_number := "GALA-0001", full_name := "John Smith",
                    original_name := "John Smith" }] := by
  refine ⟨?_, ?_, ?_, by decide⟩
  · intro h1 h2 hp
    unfold add_ticket_api
    dsimp only
    rw [if_neg (by simp [h1, h2]), hp]
  · intro k h1 h2 hp hk
    unfold add_ticket_api
    dsimp only
    rw [if_neg (by simp [h1, h2]), hp]
    dsimp only
    rw [if_pos hk]
  · intro hok
    unfold add_ticket_api at hok
    dsimp only at hok
    by_cases h0 : pyStrip tnRaw = "" ∨ pyStrip nameRaw = ""
    · rw [if_pos h0] at hok
      simp at hok
    · rw [if_neg h0] at hok
      cases hp : pyParseInt (pyStrip tnRaw) with
      | none => rw [hp] at hok; simp at hok
      | some k =>
          rw [hp] at hok
          dsimp only at hok
          by_cases hk : k < 1 ∨ 1000 < k
          · rw [if_pos hk] at hok; simp at hok
          · exact ⟨k, rfl, by omega⟩

/-- Witness for C10 at a concrete input: "GALA-0001" exists in the
registry yet is rejected as non-numeric, not as a duplicate. -/
theorem c10_add_ticket_numeric_gate_witness :
    add_ticket_api galaState "GALA-0001" "John" =
      (galaState, Resp.err ApiError.ticketNotANumber) :=
  (c10_add_ticket_numeric_gate galaState "GALA-0001" "John").1
    (by decide) (by decide) (by decide)

/-- Witness for C8 at a concrete input: the snapshot of the state with
one assignment on the blocked table 1 has 25 records. -/
theorem c8_snapshot_shape_witness :
    (get_table_status blockedBoundState).length = TOTAL_TABLES :=
  (c8_snapshot_shape blockedBoundState ⟨0, by decide⟩).1

end Gala
